import Mathlib

/-!
# Verification of the aws-broker Redis instance lifecycle orchestration

Shallow embedding of the Redis broker from `services/redis/redisinstance.go`
(`CreateInstance`, `ModifyInstance`, `LastOperation`, `BindInstance`,
`DeleteInstance`, `AsyncOperationRequired`, `RedisOptions.Validate`,
`parseOptionsFromRequest`) together with the collaborating data model
(Instance Record, plan catalog, record store, provider adapter).

The record store (gorm `brokerDB`) is embedded as a list of records with
lookup by uuid; persistence outcomes that gorm reports through `.Error`
are passed in as explicit parameters so the embedding can mirror exactly
which of them the Go code inspects.  The provider adapter
(`redisAdapter` interface) is passed in as a structure of functions: the
source constructs it in `initializeAdapter`, which never returns a
non-nil error response, so the orchestrator functions are parametrised
directly by the adapter.  Each orchestrator function returns the
caller-facing response, the resulting record store, and the list of
adapter calls it performed.
-/

deriving instance DecidableEq for Except

/-- Canonical instance lifecycle states from the `base` package
(`InstanceNotCreated`, `InstanceInProgress`, `InstanceReady`,
`InstanceGone`, `InstanceNotGone`, `InstanceNotModified`). -/
inductive InstanceState where
  | notCreated
  | inProgress
  | ready
  | gone
  | notGone
  | notModified
deriving DecidableEq, Repr

/-- Broker operations from the `base` package (`CreateOp`, `ModifyOp`,
`BindOp`, `DeleteOp`). -/
inductive Operation where
  | createOp
  | modifyOp
  | bindOp
  | deleteOp
deriving DecidableEq, Repr

/-- Redis plan from the `catalog` package, restricted to the fields the
broker code under verification reads: the plan identifier, the plan-level
tags and the approved major engine versions. -/
structure RedisPlan where
  ID : String := ""
  Tags : List (String × String) := []
  ApprovedMajorVersions : List String := []
deriving DecidableEq, Repr

/-- Modelled from the spec: `catalog.RedisPlan.CheckVersion` is not under
src/ (only its callers and tests are).  The spec says a Plan exposes the
allowed engine versions, and the repository test `TestValidate` treats a
version outside `ApprovedMajorVersions` as invalid, so `CheckVersion`
is membership in the approved major version list. -/
def RedisPlan.CheckVersion (p : RedisPlan) (version : String) : Bool :=
  p.ApprovedMajorVersions.contains version

/-- `RedisOptions` from `redisinstance.go`: the user-supplied provisioning
options, holding the requested engine version. -/
structure RedisOptions where
  EngineVersion : String := ""
deriving DecidableEq, Repr

/-- `RedisOptions.Validate` from `redisinstance.go`: a non-empty requested
engine version must be allowed by the plan; the error message text is the
literal format string of the source. -/
def RedisOptions.Validate (r : RedisOptions) (plan : RedisPlan) : Except String Unit :=
  if r.EngineVersion ≠ "" then
    if !(plan.CheckVersion r.EngineVersion) then
      .error (r.EngineVersion ++ " is not a supported major version; major version must be one of: 7.0, 6.2, 6.0, 5.0.6")
    else .ok ()
  else .ok ()

/-- Instance Record for a Redis instance.  The struct and its methods live
in a repository file that is not under src/; the fields here are the ones
named by the spec data model and by the broker code under src/ (identity,
ownership, plan reference, lifecycle status, engine version, tag set, the
persisted encrypted password and the transient clear password). -/
structure RedisInstance where
  Uuid : String := ""
  OrganizationGUID : String := ""
  SpaceGUID : String := ""
  ServiceID : String := ""
  PlanID : String := ""
  State : InstanceState := .notCreated
  EngineVersion : String := ""
  Tags : List (String × String) := []
  Password : String := ""
  ClearPassword : String := ""
deriving DecidableEq, Repr

/-- Process-wide configuration from the `config` package; the broker code
under verification reads only the encryption key. -/
structure Settings where
  EncryptionKey : String := ""
deriving DecidableEq, Repr

/-- Modelled from the spec: the tag merge performed at creation time.
Plan-level tags and request-level tags are merged; request tags win on a
key collision since they are applied second. -/
def mergeTags (planTags requestTags : List (String × String)) : List (String × String) :=
  planTags.filter (fun kv => !(requestTags.any (fun kv2 => kv2.1 == kv.1))) ++ requestTags

/-- Modelled from the spec: `RedisInstance.init` is in a repository file
not under src/.  Per the spec data model and `TestInitInstanceTags`, it
records identity and ownership, the plan identifier, the requested engine
version, the merged tag set, and a freshly generated password persisted
only in encrypted form.  Credential generation and the codec are
abstracted to fixed placeholder strings, which no claim examines. -/
def RedisInstance.init (uuid orgGUID spaceGUID serviceID : String) (plan : RedisPlan)
    (options : RedisOptions) (_s : Settings) (tags : List (String × String)) :
    Except String RedisInstance :=
  .ok { Uuid := uuid
        OrganizationGUID := orgGUID
        SpaceGUID := spaceGUID
        ServiceID := serviceID
        PlanID := plan.ID
        EngineVersion := options.EngineVersion
        Tags := mergeTags plan.Tags tags
        Password := "encrypted-password"
        ClearPassword := "clear-password" }

/-- Modelled from the spec: `RedisInstance.modify` is in a repository file
not under src/.  Per the spec (engine version is changeable via modify)
and `TestModifyInstance` (options with EngineVersion "7.0" overwrite a
stored "6.0" and change nothing else), it updates the engine version from
the requested options. -/
def RedisInstance.modify (i : RedisInstance) (options : RedisOptions) :
    Except String RedisInstance :=
  .ok { i with EngineVersion :=
          if options.EngineVersion ≠ "" then options.EngineVersion else i.EngineVersion }

/-- Modelled from the spec: `RedisInstance.getPassword` is in a repository
file not under src/.  Per the spec Credential Codec contract, it decrypts
the persisted password blob with the process-wide key; decryption of a
well-formed stored record succeeds, and the codec itself is abstracted,
so the model returns the persisted password field. -/
def RedisInstance.getPassword (i : RedisInstance) (_key : String) : Except String String :=
  .ok i.Password

/-- Modelled from the spec: the caller-facing response values built by the
`response` helper package (not under src/): error responses carry an HTTP
status code and a description; the success values are the accepted,
delete, last-operation and bind responses the broker code constructs. -/
inductive Response where
  | errorResponse (statusCode : Nat) (description : String)
  | successAccepted
  | successDelete
  | successLastOperation (state : String) (description : String)
  | successBind (credentials : List (String × String))
deriving DecidableEq, Repr

/-- A broker request from the `request` helper package, restricted to the
fields the Redis broker reads.  `RawParameters` abstracts the JSON body:
`none` is an empty body, `some (.error e)` a body that fails to
unmarshal, and `some (.ok o)` a body that unmarshals to options `o`. -/
structure Request where
  PlanID : String := ""
  ServiceID : String := ""
  OrganizationGUID : String := ""
  SpaceGUID : String := ""
  RawParameters : Option (Except String RedisOptions) := none
deriving Repr

/-- The base instance handed to the broker by the caller-facing layer
(`base.Instance`), restricted to the fields the Redis broker reads. -/
structure BaseInstance where
  Uuid : String := ""
  PlanID : String := ""
deriving DecidableEq, Repr

/-- The Redis service catalog: the list of Redis plans. -/
structure Catalog where
  redisPlans : List RedisPlan := []
deriving DecidableEq, Repr

/-- Modelled from the spec: `catalog.FetchPlan(planID) -> (Plan, error)`
is not under src/.  It returns the plan with the requested identifier, or
an error response when no such plan exists. -/
def Catalog.fetchPlan (c : Catalog) (planID : String) : Except Response RedisPlan :=
  match c.redisPlans.find? (fun p => p.ID == planID) with
  | some p => .ok p
  | none => .error (.errorResponse 400 "The plan requested does not exist")

/-- The provider adapter contract (`redisAdapter` interface in
`redisinstance.go`): create, modify, check-status, bind and delete calls
against the provider.  Calls that can mutate the record they are handed a
pointer to return the updated record. -/
structure redisAdapter where
  createRedis : RedisInstance → String → InstanceState × Option String
  modifyRedis : RedisInstance → RedisInstance × InstanceState × Option String
  checkRedisStatus : RedisInstance → InstanceState × Option String
  bindRedisToApp : RedisInstance → String → RedisInstance × Except String (List (String × String))
  deleteRedis : RedisInstance → InstanceState × Option String

/-- One provider adapter call performed by an orchestrator function. -/
inductive AdapterCall where
  | createCall
  | modifyCall
  | checkCall
  | bindCall
  | deleteCall
deriving DecidableEq, Repr

/-- The record store: the brokerDB table of Redis instance records. -/
abbrev BrokerDB := List RedisInstance

/-- The gorm lookup `Where("uuid = ?", id)`: the records whose uuid is the
requested identifier.  The broker reads its `Count` (the length) and its
`First` (the head). -/
def dbFind (db : BrokerDB) (id : String) : List RedisInstance :=
  db.filter (fun i => i.Uuid == id)

/-- The gorm `Save`: replace the record with the same uuid (primary key)
by the updated record. -/
def dbSave (db : BrokerDB) (inst : RedisInstance) : BrokerDB :=
  db.map (fun i => if i.Uuid == inst.Uuid then inst else i)

/-- The gorm `Unscoped().Delete`: remove the record with the given uuid
from the store. -/
def dbDelete (db : BrokerDB) (inst : RedisInstance) : BrokerDB :=
  db.filter (fun i => !(i.Uuid == inst.Uuid))

/-- `parseOptionsFromRequest` from `redisinstance.go`: an empty body
yields empty options; otherwise the body is unmarshalled and the result
validated against the plan. -/
def parseOptionsFromRequest (request : Request) (plan : RedisPlan) :
    Except String RedisOptions :=
  match request.RawParameters with
  | none => .ok {}
  | some (.error e) => .error e
  | some (.ok options) =>
      match options.Validate plan with
      | .error e => .error e
      | .ok _ => .ok options

/-- `AsyncOperationRequired` from `redisinstance.go`: only create is an
asynchronous operation for the Redis broker. -/
def AsyncOperationRequired (_c : Catalog) (_i : BaseInstance) (o : Operation) : Bool :=
  match o with
  | .deleteOp => false
  | .createOp => true
  | .modifyOp => false
  | .bindOp => false

/-- `CreateInstance` from `redisinstance.go`.  `genTags` is the outcome of
the external TagManager `GenerateTags` call, and `createErr` the `.Error`
outcome of `brokerDB.Create`, both passed in explicitly; the adapter is a
parameter since `initializeAdapter` never returns an error response. -/
def CreateInstance (adapter : redisAdapter) (c : Catalog) (db : BrokerDB) (id : String)
    (createRequest : Request) (settings : Settings)
    (genTags : Except String (List (String × String))) (createErr : Option String) :
    Response × BrokerDB × List AdapterCall :=
  match c.fetchPlan createRequest.PlanID with
  | .error planErr => (planErr, db, [])
  | .ok plan =>
    match parseOptionsFromRequest createRequest plan with
    | .error e => (.errorResponse 400 ("Invalid parameters. Error: " ++ e), db, [])
    | .ok options =>
      if (dbFind db id).length ≠ 0 then
        (.errorResponse 409 "The instance already exists", db, [])
      else if options.EngineVersion ≠ "" ∧ ¬(plan.CheckVersion options.EngineVersion) then
        (.errorResponse 400 (options.EngineVersion ++ " is not a supported major version; major version must be one of: 7.0, 6.2, 6.0, 5.0.6 " ++ "."), db, [])
      else
        match genTags with
        | .error e =>
            (.errorResponse 500 ("There was an error generating the tags. Error: " ++ e), db, [])
        | .ok tags =>
          match RedisInstance.init id createRequest.OrganizationGUID createRequest.SpaceGUID
              createRequest.ServiceID plan options settings tags with
          | .error e =>
              (.errorResponse 400 ("There was an error initializing the instance. Error: " ++ e), db, [])
          | .ok newInstance =>
            let status := (adapter.createRedis newInstance newInstance.ClearPassword).1
            let err := (adapter.createRedis newInstance newInstance.ClearPassword).2
            if status = .notCreated then
              (.errorResponse 400 ("There was an error creating the instance." ++
                 (match err with | some e => " Error: " ++ e | none => "")), db, [.createCall])
            else
              let created := { newInstance with State := status }
              match createErr with
              | some e => (.errorResponse 400 e, db, [.createCall])
              | none => (.successAccepted, db ++ [created], [.createCall])

/-- `ModifyInstance` from `redisinstance.go`.  Unlike every other handler
in the file, this function passes `existingInstance` to the store BY
VALUE: `First(existingInstance)` and `Save(existingInstance)` instead of
`First(&existingInstance)` as in create, last-operation, bind and
delete.  By Go semantics a struct passed as an interface value is a
boxed copy, so the gorm `First` can never populate the caller record,
which stays zero-valued.  Concretely, in the jinzhu gorm v1 query
callback scanning a found row takes the address of the destination
(`elem.Addr()` on the non-addressable copy), which is a reflect runtime
panic; so when a record with the identifier exists the request aborts in
the load, before the plan-switch check, the adapter modify call and the
save are ever reached.  When no record matches, nothing is scanned (no
panic), only `ErrRecordNotFound` is set on the db error — which this
code never reads — and the chained `Count`, whose row query does not
gate on a prior error, still reports zero, producing the NotFound
rejection.  The first component of the result is therefore an
`Option Response`, with `none` modelling the abort: no caller-facing
response from the orchestrator, store untouched, no adapter call.  The
plan-switch check, the option merge, the adapter modify call and the
by-value `Save` of the source are unreachable.  The `saveErr` parameter
mirrors the (unreachable) `.Error` check after `Save` and is unused. -/
def ModifyInstance (_adapter : redisAdapter) (c : Catalog) (db : BrokerDB) (id : String)
    (modifyRequest : Request) (_saveErr : Option String) :
    Option Response × BrokerDB × List AdapterCall :=
  match c.fetchPlan modifyRequest.PlanID with
  | .error planErr => (some planErr, db, [])
  | .ok newPlan =>
    match parseOptionsFromRequest modifyRequest newPlan with
    | .error e => (some (.errorResponse 400 ("Invalid parameters. Error: " ++ e)), db, [])
    | .ok _options =>
      match dbFind db id with
      | [] => (some (.errorResponse 404 "The instance does not exist."), db, [])
      | _ :: _ => (none, db, [])

/-- The status-to-state mapping switch inside `LastOperation` in
`redisinstance.go`; the default arm reports "in progress". -/
def lastOperationState (status : InstanceState) : String :=
  match status with
  | .inProgress => "in progress"
  | .ready => "succeeded"
  | .notCreated => "failed"
  | .notGone => "failed"
  | _ => "in progress"

/-- `LastOperation` from `redisinstance.go`.  The error component of the
adapter checkRedisStatus result is discarded by the source (assigned to
the blank identifier), so only the status component is read here. -/
def LastOperation (adapter : redisAdapter) (c : Catalog) (db : BrokerDB) (id : String)
    (baseInstance : BaseInstance) : Response × BrokerDB × List AdapterCall :=
  match dbFind db id with
  | [] => (.errorResponse 404 "Instance not found", db, [])
  | existingInstance :: _ =>
    match c.fetchPlan baseInstance.PlanID with
    | .error planErr => (planErr, db, [])
    | .ok _plan =>
      let state := lastOperationState (adapter.checkRedisStatus existingInstance).1
      (.successLastOperation state ("The service instance status is " ++ state), db, [.checkCall])

/-- `BindInstance` from `redisinstance.go`.  The source calls
`brokerDB.Save` only when the adapter bind changed the instance state and
never inspects the outcome of that save, so the save outcome is the
`saveFails` parameter and is not read for the response. -/
def BindInstance (adapter : redisAdapter) (c : Catalog) (db : BrokerDB) (id : String)
    (_bindRequest : Request) (baseInstance : BaseInstance) (settings : Settings)
    (saveFails : Bool) : Response × BrokerDB × List AdapterCall :=
  match dbFind db id with
  | [] => (.errorResponse 404 "Instance not found", db, [])
  | existingInstance :: _ =>
    match c.fetchPlan baseInstance.PlanID with
    | .error planErr => (planErr, db, [])
    | .ok _plan =>
      match existingInstance.getPassword settings.EncryptionKey with
      | .error _ => (.errorResponse 500 "Unable to get instance password.", db, [])
      | .ok password =>
        let originalInstanceState := existingInstance.State
        match adapter.bindRedisToApp existingInstance password with
        | (_, .error e) =>
            (.errorResponse 400
              ("There was an error binding the database instance to the application." ++
               " Error: " ++ e), db, [.bindCall])
        | (bound, .ok credentials) =>
            let db2 :=
              if bound.State ≠ originalInstanceState then
                (if saveFails then db else dbSave db bound)
              else db
            (.successBind credentials, db2, [.bindCall])

/-- `DeleteInstance` from `redisinstance.go`.  The source never inspects
the outcome of `brokerDB.Unscoped().Delete`, so the store-removal outcome
is the `dbDeleteFails` parameter and is not read for the response. -/
def DeleteInstance (adapter : redisAdapter) (c : Catalog) (db : BrokerDB) (id : String)
    (baseInstance : BaseInstance) (dbDeleteFails : Bool) :
    Response × BrokerDB × List AdapterCall :=
  match dbFind db id with
  | [] => (.errorResponse 404 "Instance not found", db, [])
  | existingInstance :: _ =>
    match c.fetchPlan baseInstance.PlanID with
    | .error planErr => (planErr, db, [])
    | .ok _plan =>
      let status := (adapter.deleteRedis existingInstance).1
      let err := (adapter.deleteRedis existingInstance).2
      if status = .notGone then
        (.errorResponse 400 ("There was an error deleting the instance." ++
           (match err with | some e => " Error: " ++ e | none => "")), db, [.deleteCall])
      else
        let db2 := if dbDeleteFails then db else dbDelete db existingInstance
        (.successDelete, db2, [.deleteCall])

/-- Whether a response is an error response with HTTP status 409 Conflict. -/
def Response.isConflict : Response → Bool
  | .errorResponse 409 _ => true
  | _ => false

/-! ## Store lemmas -/

/-- The record returned by a uuid lookup carries that uuid. -/
theorem dbFind_head_uuid (db : BrokerDB) (id : String) (inst : RedisInstance)
    (rest : List RedisInstance) (h : dbFind db id = inst :: rest) : inst.Uuid = id := by
  have hmem : inst ∈ dbFind db id := by
    rw [h]; exact List.mem_cons_self _ _
  have := (List.mem_filter.mp hmem).2
  simpa using this

/-- Saving a record whose uuid is the looked-up identifier rewrites every
record found under that identifier to the saved record. -/
theorem dbFind_dbSave (db : BrokerDB) (b : RedisInstance) (id : String)
    (hb : b.Uuid = id) : dbFind (dbSave db b) id = (dbFind db id).map (fun _ => b) := by
  induction db with
  | nil => rfl
  | cons i t ih =>
    by_cases hi : i.Uuid = b.Uuid
    · simp [dbFind, dbSave, hi, hb] at *
      simpa [dbFind, dbSave] using ih
    · have hi2 : i.Uuid ≠ id := by rw [hb] at hi; exact hi
      simp [dbFind, dbSave, hi, hi2] at *
      simpa [dbFind, dbSave] using ih

/-! ## Concrete fixtures used by counterexamples and witnesses -/

/-- A plan approving the major versions 5.0, 6.0 and 7.0. -/
def wPlan : RedisPlan :=
  { ID := "plan-1", Tags := [], ApprovedMajorVersions := ["5.0", "6.0", "7.0"] }

/-- A catalog holding just `wPlan`. -/
def wCatalog : Catalog := { redisPlans := [wPlan] }

/-- Concrete settings with a 16-byte encryption key. -/
def wSettings : Settings := { EncryptionKey := "0123456789abcdef" }

/-- The base instance for the record `i-1` on `wPlan`. -/
def wBase : BaseInstance := { Uuid := "i-1", PlanID := "plan-1" }

/-- A ready record for instance `i-1` on `wPlan`. -/
def wInstReady : RedisInstance :=
  { Uuid := "i-1", PlanID := "plan-1", State := .ready, Password := "enc-pw" }

/-- A record for instance `i-1` on `wPlan` with an in-flight provisioning
status. -/
def wInstProvisioning : RedisInstance :=
  { Uuid := "i-1", PlanID := "plan-1", State := .inProgress, Password := "enc-pw" }

/-- A request against `wPlan` with an empty body. -/
def wRequest : Request := { PlanID := "plan-1" }

/-- A concrete well-behaved adapter: create submits asynchronously, modify
and bind succeed without further changes, check-status reports the stored
state, delete completes synchronously. -/
def wAdapter : redisAdapter :=
  { createRedis := fun _ _ => (.inProgress, none)
    modifyRedis := fun i => (i, .ready, none)
    checkRedisStatus := fun i => (i.State, none)
    bindRedisToApp := fun i _ => (i, .ok [("uri", "redis://h:6379")])
    deleteRedis := fun _ => (.gone, none) }

/-- An adapter whose check-status call reports a ready status together
with a provider error. -/
def errAdapter : redisAdapter :=
  { wAdapter with checkRedisStatus := fun _ => (.ready, some "provider call failed") }

/-- A plan approving only the major version 5.0. -/
def cPlan5 : RedisPlan := { ID := "plan-5", Tags := [], ApprovedMajorVersions := ["5.0"] }

/-- A catalog holding just `cPlan5`. -/
def cCatalog5 : Catalog := { redisPlans := [cPlan5] }

/-- An existing ready record for instance `i-1` on `cPlan5`. -/
def cInst5 : RedisInstance :=
  { Uuid := "i-1", PlanID := "plan-5", State := .ready, Password := "enc-pw" }

/-- A request against `cPlan5` whose body asks for the unapproved engine
version 4.1. -/
def cRequest5 : Request :=
  { PlanID := "plan-5", RawParameters := some (.ok { EngineVersion := "4.1" }) }

/-! ## Claims -/

/-- C4 (code_bug): options validation with a non-empty engine version not
approved by the plan does fail and does name the invalid version, but the
error message lists a hardcoded version set "7.0, 6.2, 6.0, 5.0.6"
instead of the plan approved version set.  Evaluated at the failing input
of the repository test `TestParseOptionsFromRequest` (engine version 9.0
against a plan approving 7.0 and 8.0, where that test expects the plan
list "7.0, 8.0") and at the example of the claim (4.1 against a plan
approving only 5.0). -/
theorem validate_version_message_hardcoded :
    RedisOptions.Validate { EngineVersion := "9.0" }
        { ID := "p", Tags := [], ApprovedMajorVersions := ["7.0", "8.0"] } =
      .error "9.0 is not a supported major version; major version must be one of: 7.0, 6.2, 6.0, 5.0.6"
    ∧ decide (RedisOptions.Validate { EngineVersion := "9.0" }
        { ID := "p", Tags := [], ApprovedMajorVersions := ["7.0", "8.0"] } =
      .error "9.0 is not a supported major version; major version must be one of: 7.0, 8.0") = false
    ∧ RedisOptions.Validate { EngineVersion := "4.1" }
        { ID := "p", Tags := [], ApprovedMajorVersions := ["5.0"] } =
      .error "4.1 is not a supported major version; major version must be one of: 7.0, 6.2, 6.0, 5.0.6"
    ∧ decide (RedisOptions.Validate { EngineVersion := "4.1" }
        { ID := "p", Tags := [], ApprovedMajorVersions := ["5.0"] } =
      .error "4.1 is not a supported major version; major version must be one of: 5.0") = false := by
  refine ⟨rfl, by decide, rfl, by decide⟩

/-- C2: a create request for an identifier that already has a stored
Record is rejected with the 409 Conflict response "The instance already
exists"; the store is returned unchanged (no record overwritten or
created) and no adapter call is made. -/
theorem create_duplicate_conflict
    (adapter : redisAdapter) (c : Catalog) (db : BrokerDB) (id : String)
    (createRequest : Request) (settings : Settings)
    (genTags : Except String (List (String × String))) (createErr : Option String)
    (plan : RedisPlan) (options : RedisOptions)
    (hplan : c.fetchPlan createRequest.PlanID = .ok plan)
    (hoptions : parseOptionsFromRequest createRequest plan = .ok options)
    (hdup : dbFind db id ≠ []) :
    CreateInstance adapter c db id createRequest settings genTags createErr =
      (.errorResponse 409 "The instance already exists", db, []) := by
  have hlen : (dbFind db id).length ≠ 0 := by
    simpa [List.length_eq_zero] using hdup
  unfold CreateInstance
  rw [hplan]
  simp [hoptions, hlen]

/-- C2 witness: a second create for `i-1` against a store already holding
the record of the first create is the concrete Conflict rejection. -/
theorem create_duplicate_conflict_witness :
    CreateInstance wAdapter wCatalog [wInstReady] "i-1" wRequest wSettings (.ok []) none =
      (.errorResponse 409 "The instance already exists", [wInstReady], []) :=
  create_duplicate_conflict wAdapter wCatalog [wInstReady] "i-1" wRequest wSettings (.ok []) none
    wPlan {} rfl rfl (by decide)

/-- C1 counterexample: a modify request on the record `i-1` whose stored
status is the in-flight provisioning status `inProgress` is not rejected
with a Conflict error: the by-value record load fails on the record it
finds, so the orchestrator produces no response at all (`none`, the
modelled abort) — in particular no Conflict error response — before any
adapter call and with the store (and the stored in-flight status)
untouched. -/
theorem modify_on_provisioning_not_conflict :
    wInstProvisioning.State = .inProgress
    ∧ ModifyInstance wAdapter wCatalog [wInstProvisioning] "i-1" wRequest none =
        (none, [wInstProvisioning], []) := by
  refine ⟨rfl, rfl⟩

/-- C5 counterexample: a create request carrying both a duplicate
identifier (the store already holds `i-1`) and invalid options (engine
version 4.1 against a plan approving only 5.0) is rejected with the
options validation error, not with the duplicate Conflict error: the
options are validated before the store is consulted for a duplicate. -/
theorem create_duplicate_and_invalid_options_not_conflict :
    (dbFind [cInst5] "i-1").length ≠ 0
    ∧ (CreateInstance wAdapter cCatalog5 [cInst5] "i-1" cRequest5 wSettings (.ok []) none).1 =
        .errorResponse 400 "Invalid parameters. Error: 4.1 is not a supported major version; major version must be one of: 7.0, 6.2, 6.0, 5.0.6"
    ∧ Response.isConflict
        (CreateInstance wAdapter cCatalog5 [cInst5] "i-1" cRequest5 wSettings (.ok []) none).1 =
        false := by
  refine ⟨by decide, by decide, by decide⟩

/-- C6 counterexample: when the adapter check-status call returns a
provider error, `LastOperation` discards it: with an adapter reporting a
ready status together with an error, the response is the plain success
last-operation response, and the error text is surfaced nowhere. -/
theorem lastoperation_masks_adapter_error :
    (errAdapter.checkRedisStatus wInstReady).2 = some "provider call failed"
    ∧ LastOperation errAdapter wCatalog [wInstReady] "i-1" wBase =
        (.successLastOperation "succeeded" "The service instance status is succeeded",
          [wInstReady], [.checkCall]) := by
  refine ⟨rfl, by decide⟩

/-- A plan with a different identifier from `wPlan`. -/
def wPlan2 : RedisPlan := { ID := "plan-2", Tags := [], ApprovedMajorVersions := ["7.0"] }

/-- A catalog holding `wPlan` and `wPlan2`. -/
def wCatalog2 : Catalog := { redisPlans := [wPlan, wPlan2] }

/-- A request asking for `wPlan2` with an empty body. -/
def wRequest2 : Request := { PlanID := "plan-2" }

/-- An adapter whose bind call completes a warm-up: it moves the record
state to ready and returns host credentials. -/
def bindWarmupAdapter : redisAdapter :=
  { wAdapter with bindRedisToApp := fun i _ => ({ i with State := .ready }, .ok [("host", "h")]) }

/-- C1 amended: a modify request on a Record in an in-flight status is
never rejected with Conflict, because `ModifyInstance` has no status gate
at all: for any existing record — in particular one whose stored status
is the in-flight provisioning status — the by-value record load cannot
populate the record and fails at runtime on the row it finds, so the
request aborts (no orchestrator response, modelled `none`) before any
adapter call, leaving the store and the stored in-flight status
unchanged. -/
theorem modify_aborts_in_load_never_conflict
    (adapter : redisAdapter) (c : Catalog) (db : BrokerDB) (id : String)
    (modifyRequest : Request) (saveErr : Option String)
    (newPlan : RedisPlan) (options : RedisOptions)
    (inst : RedisInstance) (rest : List RedisInstance)
    (hplan : c.fetchPlan modifyRequest.PlanID = .ok newPlan)
    (hoptions : parseOptionsFromRequest modifyRequest newPlan = .ok options)
    (hfind : dbFind db id = inst :: rest)
    (hinflight : inst.State = .inProgress) :
    ModifyInstance adapter c db id modifyRequest saveErr = (none, db, []) := by
  unfold ModifyInstance
  rw [hplan]
  simp [hoptions, hfind]

/-- C1 amended witness: the concrete modify on the provisioning record
`i-1` aborts in the record load with the store untouched. -/
theorem modify_aborts_in_load_never_conflict_witness :
    ModifyInstance wAdapter wCatalog [wInstProvisioning] "i-1" wRequest none =
      (none, [wInstProvisioning], []) :=
  modify_aborts_in_load_never_conflict wAdapter wCatalog [wInstProvisioning] "i-1" wRequest
    none wPlan {} wInstProvisioning [] rfl rfl rfl rfl

/-- C3 (code_bug): the source contains exactly the plan-immutability
check the claim describes (`newPlan.ID != existingInstance.PlanID`,
rejecting with "Switching plans is not supported.", under the comment
that plan switching is not yet supported) — but the by-value
`First(existingInstance)` two lines above it means the stored record is
never loaded, and on any existing record the load itself fails at
runtime, so the check is unreachable and a modify request whose
requested plan differs from the stored plan aborts with no rejection
response at all.  Evaluated at the failing input: the store holds record
`i-1` on plan-1, the request asks for plan-2 (both in the catalog), and
the result is the abort (`none`) with the store untouched and no adapter
call, not the plan-switch rejection the claim (and the unreachable check
itself) calls for. -/
theorem modify_plan_change_check_unreachable :
    wInstReady.PlanID = "plan-1"
    ∧ wPlan2.ID = "plan-2"
    ∧ wCatalog2.fetchPlan wRequest2.PlanID = .ok wPlan2
    ∧ ModifyInstance wAdapter wCatalog2 [wInstReady] "i-1" wRequest2 none =
        (none, [wInstReady], []) := by
  refine ⟨rfl, rfl, rfl, rfl⟩

/-- C5 amended: create validates the requested options against the plan
before consulting the store for a duplicate identifier, so a create
request with both a duplicate identifier and invalid options is rejected
with the options validation (Invalid parameters, 400) error, not with the
duplicate Conflict error; the store is unchanged and no adapter call is
made. -/
theorem create_validation_precedes_duplicate_check
    (adapter : redisAdapter) (c : Catalog) (db : BrokerDB) (id : String)
    (createRequest : Request) (settings : Settings)
    (genTags : Except String (List (String × String))) (createErr : Option String)
    (plan : RedisPlan) (e : String)
    (hplan : c.fetchPlan createRequest.PlanID = .ok plan)
    (hoptions : parseOptionsFromRequest createRequest plan = .error e)
    (hdup : dbFind db id ≠ []) :
    CreateInstance adapter c db id createRequest settings genTags createErr =
      (.errorResponse 400 ("Invalid parameters. Error: " ++ e), db, []) := by
  unfold CreateInstance
  rw [hplan]
  simp [hoptions]

/-- C5 amended witness: the concrete duplicate create with invalid
options is the validation rejection. -/
theorem create_validation_precedes_duplicate_check_witness :
    CreateInstance wAdapter cCatalog5 [cInst5] "i-1" cRequest5 wSettings (.ok []) none =
      (.errorResponse 400 "Invalid parameters. Error: 4.1 is not a supported major version; major version must be one of: 7.0, 6.2, 6.0, 5.0.6",
        [cInst5], []) :=
  create_validation_precedes_duplicate_check wAdapter cCatalog5 [cInst5] "i-1" cRequest5
    wSettings (.ok []) none cPlan5
    "4.1 is not a supported major version; major version must be one of: 7.0, 6.2, 6.0, 5.0.6"
    rfl rfl (by decide)

/-- C6 amended: `LastOperation` ignores the error component of the
adapter check-status result: two adapters whose check-status calls agree
on the status component but may differ arbitrarily in the error component
get identical responses, and the response for an existing record with a
resolvable plan is always the success last-operation response computed
from the status alone, never an error response. -/
theorem lastoperation_ignores_adapter_error
    (a1 a2 : redisAdapter) (c : Catalog) (db : BrokerDB) (id : String)
    (baseInstance : BaseInstance) (inst : RedisInstance) (rest : List RedisInstance)
    (plan : RedisPlan)
    (hfind : dbFind db id = inst :: rest)
    (hplan : c.fetchPlan baseInstance.PlanID = .ok plan)
    (hagree : (a1.checkRedisStatus inst).1 = (a2.checkRedisStatus inst).1) :
    LastOperation a1 c db id baseInstance = LastOperation a2 c db id baseInstance
    ∧ (LastOperation a1 c db id baseInstance).1 =
        .successLastOperation (lastOperationState (a1.checkRedisStatus inst).1)
          ("The service instance status is " ++
            lastOperationState (a1.checkRedisStatus inst).1) := by
  have h1 : LastOperation a1 c db id baseInstance =
      (.successLastOperation (lastOperationState (a1.checkRedisStatus inst).1)
        ("The service instance status is " ++ lastOperationState (a1.checkRedisStatus inst).1),
        db, [.checkCall]) := by
    unfold LastOperation
    rw [hfind, hplan]
  have h2 : LastOperation a2 c db id baseInstance =
      (.successLastOperation (lastOperationState (a2.checkRedisStatus inst).1)
        ("The service instance status is " ++ lastOperationState (a2.checkRedisStatus inst).1),
        db, [.checkCall]) := by
    unfold LastOperation
    rw [hfind, hplan]
  refine ⟨?_, ?_⟩
  · rw [h1, h2, hagree]
  · rw [h1]

/-- C6 amended witness: the well-behaved adapter and the erroring adapter
agree on the status for the ready record `i-1` and get the very same
success response. -/
theorem lastoperation_ignores_adapter_error_witness :
    LastOperation wAdapter wCatalog [wInstReady] "i-1" wBase =
      LastOperation errAdapter wCatalog [wInstReady] "i-1" wBase
    ∧ (LastOperation wAdapter wCatalog [wInstReady] "i-1" wBase).1 =
        .successLastOperation (lastOperationState (wAdapter.checkRedisStatus wInstReady).1)
          ("The service instance status is " ++
            lastOperationState (wAdapter.checkRedisStatus wInstReady).1) :=
  lastoperation_ignores_adapter_error wAdapter errAdapter wCatalog [wInstReady] "i-1" wBase
    wInstReady [] wPlan rfl rfl rfl

/-- C7: a successful bind on an existing record returns the adapter
credentials; when the adapter bind leaves the record state unchanged no
write to the store occurs at all, and in every case the persisted
encrypted password of the record is unchanged, given that the adapter
bind preserves the record key and password fields (per the adapter
contract, bind produces credentials and may only advance the lifecycle
state). -/
theorem bind_preserves_password_and_writes_only_on_state_change
    (adapter : redisAdapter) (c : Catalog) (db : BrokerDB) (id : String)
    (bindRequest : Request) (baseInstance : BaseInstance) (settings : Settings)
    (inst bound : RedisInstance) (credentials : List (String × String)) (plan : RedisPlan)
    (hfind : dbFind db id = [inst])
    (hplan : c.fetchPlan baseInstance.PlanID = .ok plan)
    (hbind : adapter.bindRedisToApp inst inst.Password = (bound, .ok credentials))
    (huuid : bound.Uuid = inst.Uuid)
    (hpw : bound.Password = inst.Password) :
    (BindInstance adapter c db id bindRequest baseInstance settings false).1 =
      .successBind credentials
    ∧ (bound.State = inst.State →
        (BindInstance adapter c db id bindRequest baseInstance settings false).2.1 = db)
    ∧ (dbFind (BindInstance adapter c db id bindRequest baseInstance settings false).2.1 id).map
        RedisInstance.Password = [inst.Password] := by
  have hrun : BindInstance adapter c db id bindRequest baseInstance settings false =
      (.successBind credentials,
        if bound.State = inst.State then db else dbSave db bound, [.bindCall]) := by
    unfold BindInstance
    rw [hfind, hplan]
    simp [RedisInstance.getPassword, hbind]
  have hid : inst.Uuid = id := dbFind_head_uuid db id inst [] hfind
  have hbid : bound.Uuid = id := huuid.trans hid
  refine ⟨by rw [hrun], ?_, ?_⟩
  · intro h
    rw [hrun]
    simp [h]
  · rw [hrun]
    by_cases h : bound.State = inst.State
    · simp [h, hfind]
    · simp [h, dbFind_dbSave db bound id hbid, hfind, hpw]

/-- C7 witness: the warm-up bind on the provisioning record `i-1` returns
the credentials and leaves the stored encrypted password intact. -/
theorem bind_preserves_password_witness :
    (BindInstance bindWarmupAdapter wCatalog [wInstProvisioning] "i-1" wRequest wBase wSettings
        false).1 = .successBind [("host", "h")]
    ∧ (dbFind (BindInstance bindWarmupAdapter wCatalog [wInstProvisioning] "i-1" wRequest wBase
        wSettings false).2.1 "i-1").map RedisInstance.Password = ["enc-pw"] := by
  have h := bind_preserves_password_and_writes_only_on_state_change bindWarmupAdapter wCatalog
    [wInstProvisioning] "i-1" wRequest wBase wSettings wInstProvisioning
    { wInstProvisioning with State := .ready } [("host", "h")] wPlan rfl rfl rfl rfl rfl
  exact ⟨h.1, h.2.2⟩

/-- C8: the status returned by the adapter check-status call is mapped to
the caller-facing tri-state: an in-progress status maps to "in progress",
a ready status to "succeeded", a not-created or not-gone status to
"failed", and the response always carries the human-readable description
naming the state. -/
theorem lastoperation_status_mapping
    (adapter : redisAdapter) (c : Catalog) (db : BrokerDB) (id : String)
    (baseInstance : BaseInstance) (inst : RedisInstance) (rest : List RedisInstance)
    (plan : RedisPlan)
    (hfind : dbFind db id = inst :: rest)
    (hplan : c.fetchPlan baseInstance.PlanID = .ok plan) :
    ((adapter.checkRedisStatus inst).1 = .inProgress →
      (LastOperation adapter c db id baseInstance).1 =
        .successLastOperation "in progress" "The service instance status is in progress")
    ∧ ((adapter.checkRedisStatus inst).1 = .ready →
      (LastOperation adapter c db id baseInstance).1 =
        .successLastOperation "succeeded" "The service instance status is succeeded")
    ∧ ((adapter.checkRedisStatus inst).1 = .notCreated →
      (LastOperation adapter c db id baseInstance).1 =
        .successLastOperation "failed" "The service instance status is failed")
    ∧ ((adapter.checkRedisStatus inst).1 = .notGone →
      (LastOperation adapter c db id baseInstance).1 =
        .successLastOperation "failed" "The service instance status is failed") := by
  have hrun : LastOperation adapter c db id baseInstance =
      (.successLastOperation (lastOperationState (adapter.checkRedisStatus inst).1)
        ("The service instance status is " ++
          lastOperationState (adapter.checkRedisStatus inst).1), db, [.checkCall]) := by
    unfold LastOperation
    rw [hfind, hplan]
  refine ⟨?_, ?_, ?_, ?_⟩ <;> intro h <;> rw [hrun, h] <;> rfl

/-- C8 witness: for the concrete adapter reporting the ready status of
record `i-1`, the last-operation response is the succeeded tri-state with
its description. -/
theorem lastoperation_status_mapping_witness :
    (LastOperation wAdapter wCatalog [wInstReady] "i-1" wBase).1 =
      .successLastOperation "succeeded" "The service instance status is succeeded" := by
  have h := lastoperation_status_mapping wAdapter wCatalog [wInstReady] "i-1" wBase
    wInstReady [] wPlan rfl rfl
  exact h.2.1 rfl

/-- C9: delete on an unknown identifier is the 404 NotFound rejection
with the store untouched; delete on an existing record whose adapter
delete completes synchronously (result status is not notGone) removes the
record with the requested identifier from the store entirely and returns
the delete success response; and delete is declared a synchronous
operation by `AsyncOperationRequired`. -/
theorem delete_sync_removes_record_and_is_declared_sync
    (adapter : redisAdapter) (c : Catalog) (db : BrokerDB) (id : String)
    (baseInstance : BaseInstance) :
    (dbFind db id = [] →
      DeleteInstance adapter c db id baseInstance false =
        (.errorResponse 404 "Instance not found", db, []))
    ∧ (∀ inst rest plan, dbFind db id = inst :: rest →
        c.fetchPlan baseInstance.PlanID = .ok plan →
        (adapter.deleteRedis inst).1 ≠ .notGone →
        DeleteInstance adapter c db id baseInstance false =
          (.successDelete, db.filter (fun j => !(j.Uuid == id)), [.deleteCall]))
    ∧ AsyncOperationRequired c baseInstance .deleteOp = false := by
  refine ⟨?_, ?_, rfl⟩
  · intro h
    unfold DeleteInstance
    rw [h]
  · intro inst rest plan hfind hplan hst
    have huuid : inst.Uuid = id := dbFind_head_uuid db id inst rest hfind
    unfold DeleteInstance
    rw [hfind, hplan]
    simp [hst, dbDelete, huuid]

/-- C9 witness: concrete synchronous delete of `i-1` empties the store
and succeeds, delete of an unknown identifier is NotFound, and delete is
declared synchronous. -/
theorem delete_sync_removes_record_and_is_declared_sync_witness :
    DeleteInstance wAdapter wCatalog [wInstReady] "i-1" wBase false =
      (.successDelete, [], [.deleteCall])
    ∧ DeleteInstance wAdapter wCatalog [] "i-1" wBase false =
      (.errorResponse 404 "Instance not found", [], [])
    ∧ AsyncOperationRequired wCatalog wBase .deleteOp = false := by
  have h := delete_sync_removes_record_and_is_declared_sync wAdapter wCatalog [wInstReady]
    "i-1" wBase
  have h0 := delete_sync_removes_record_and_is_declared_sync wAdapter wCatalog [] "i-1" wBase
  exact ⟨h.2.1 wInstReady [] wPlan rfl rfl (by decide), h0.1 rfl, h.2.2⟩

/-- C10: after the adapter delete call reports anything other than
notGone, the delete success response is returned unconditionally: even
when the store removal of the record fails, the record is still in the
store and the caller is nevertheless told the deletion succeeded. -/
theorem delete_reports_success_despite_store_removal_failure
    (adapter : redisAdapter) (c : Catalog) (db : BrokerDB) (id : String)
    (baseInstance : BaseInstance) (inst : RedisInstance) (rest : List RedisInstance)
    (plan : RedisPlan)
    (hfind : dbFind db id = inst :: rest)
    (hplan : c.fetchPlan baseInstance.PlanID = .ok plan)
    (hst : (adapter.deleteRedis inst).1 ≠ .notGone) :
    (DeleteInstance adapter c db id baseInstance true).1 = .successDelete
    ∧ (DeleteInstance adapter c db id baseInstance true).2.1 = db := by
  unfold DeleteInstance
  rw [hfind, hplan]
  simp [hst]

/-- C10 witness: the concrete delete of `i-1` with a failing store
removal still reports success while the record remains stored. -/
theorem delete_reports_success_despite_store_removal_failure_witness :
    (DeleteInstance wAdapter wCatalog [wInstReady] "i-1" wBase true).1 = .successDelete
    ∧ (DeleteInstance wAdapter wCatalog [wInstReady] "i-1" wBase true).2.1 = [wInstReady] :=
  delete_reports_success_despite_store_removal_failure wAdapter wCatalog [wInstReady] "i-1"
    wBase wInstReady [] wPlan rfl rfl (by decide)
